import Mathlib

/-
Verification of the log-configuration model of the MySQL operator
(`mysqloperator/controller/innodbcluster/logs/logs_types_api.py`).

The development shallowly embeds the source file:
* raw specification-document values (Python objects read from YAML) as `PyVal`;
* the per-log-kind specification classes `GeneralLogSpec`, `ErrorLogSpec`,
  `SlowQueryLogSpec` as structures whose fields mirror the Python instance
  attributes set in `__init__`, with `parse` / `validate` / `get_cm_data`
  as functions over those structures (Python exceptions become `Except`);
* the two representations of the workload template handled by
  `ConfigMapMountBase.add_to_sts_spec` — the generic dict tree that is
  merge-patched, and the typed `V1StatefulSet` whose lists are edited in
  place — as `GenPodSpec` and `TypedPodSpec`, combined in `Sts`.

External helpers of the repository that are not part of the given source file
(`api_utils.dget_bool`, `api_utils.dget_int`, `utils.merge_patch_object`) are
modelled from the specification, and are marked as such in their doc comments.
-/

namespace MySQLOperatorLogs

/-- A raw value of the specification document, as Python hands it to `parse`.
`bool` is listed separately although Python's `bool` is a subclass of `int`;
`PyVal.isNum` accounts for that subclassing.  Python float repr is
approximated by the rational's `toString`; no theorem below evaluates it. -/
inductive PyVal where
  | int (i : Int)
  | float (q : Rat)
  | str (s : String)
  | bool (b : Bool)
deriving DecidableEq

/-- Python `isinstance(v, int) or isinstance(v, float)`; `True`/`False` are
instances of `int` in Python. -/
def PyVal.isNum : PyVal → Bool
  | .int _ => true
  | .float _ => true
  | .str _ => false
  | .bool _ => true

/-- Python `v < 0` on a numeric value (`False`/`True` count as `0`/`1`). -/
def PyVal.isNeg : PyVal → Bool
  | .int i => i < 0
  | .float q => q < 0
  | .str _ => false
  | .bool _ => false

/-- Python truthiness of a raw value. -/
def PyVal.truthy : PyVal → Bool
  | .int i => i != 0
  | .float q => q != 0
  | .str s => s != ""
  | .bool b => b

/-- Python `f"{v}"` string interpolation of a raw value. -/
def PyVal.render : PyVal → String
  | .int i => toString i
  | .float q => toString q
  | .str s => s
  | .bool b => if b then "True" else "False"

/-- A specification fragment: a Python dict, field name to raw value. -/
abbrev Doc := List (String × PyVal)

/-- Python `field in spec` followed by `spec[field]`. -/
def memField (d : Doc) (field : String) : Bool :=
  (d.lookup field).isSome

/-- Python `not spec` for the `Optional[dict]` argument of `parse`:
`None` and the empty dict are falsy. -/
def notSpec : Option Doc → Bool
  | none => true
  | some d => d.isEmpty

/-- Python truthiness of an `Optional[bool]` (`None` and `False` are falsy). -/
def optBoolTruthy : Option Bool → Bool
  | none => false
  | some b => b

/-- Python truthiness of an `Optional[str]` (`None` and `""` are falsy). -/
def optStrTruthy : Option String → Bool
  | none => false
  | some s => s != ""

/-- Python `f"{v}"` of an `Optional[str]` (used inside error messages). -/
def pyStrOfOpt : Option String → String
  | none => "None"
  | some s => s

/-- Modelled from the spec: the external boolean-field extractor
(`api_utils.dget_bool`, not under src/) returns the field's boolean value and
fails with a specification error carrying the error-path prefix on type
mismatch. -/
def dget_bool (d : Doc) (field pathPfx : String) : Except String Bool :=
  match d.lookup field with
  | some (.bool b) => Except.ok b
  | _ => Except.error (pathPfx ++ "." ++ field ++ " expected a boolean")

/-- Modelled from the spec: the external integer-field extractor
(`api_utils.dget_int`, not under src/) returns the field's integer value and
fails with a specification error carrying the error-path prefix on type
mismatch. -/
def dget_int (d : Doc) (field pathPfx : String) : Except String Int :=
  match d.lookup field with
  | some (.int i) => Except.ok i
  | _ => Except.error (pathPfx ++ "." ++ field ++ " expected an integer")

/-- Did the call raise (`Except.error` models a raised `ApiSpecError`)? -/
def raisesError : Except String Unit → Bool
  | .ok _ => false
  | .error _ => true

/-- The three constructor arguments of `ConfigMapMountBase.__init__`. -/
structure MountDescriptor where
  volume_mount_name : String
  config_file_name : String
  config_file_mount_path : String
deriving DecidableEq

/-- State of a `GeneralLogSpec` instance; defaults are the `__init__` values.
The Python private attribute `_prefix` is named `pfx` here. -/
structure GeneralLogSpec where
  _enabled : Option Bool := none
  collect : Bool := false
  fileName : String := "general_query.log"
  pfx : Option String := none
deriving DecidableEq

/-- The `ConfigMapMountBase` constructor arguments of `GeneralLogSpec`. -/
def generalLogDescriptor : MountDescriptor :=
  { volume_mount_name := "general-log-config"
    config_file_name := "general-log.cnf"
    config_file_mount_path := "/etc/my.cnf.d" }

/-- The `enabled` property of `GeneralLogSpec`. -/
def GeneralLogSpec.enabled (g : GeneralLogSpec) : Option Bool :=
  g._enabled

/-- `GeneralLogSpec.parse`: no-op on an absent/empty fragment, otherwise
records the error-path prefix and reads the `enabled` and `collect` fields
when present. -/
def GeneralLogSpec.parse (frag : Option Doc) (p : String) (g : GeneralLogSpec) :
    Except String GeneralLogSpec :=
  if notSpec frag then Except.ok g
  else
    let d := frag.getD []
    let g := { g with pfx := some p }
    do
      let g ← if memField d "enabled" then do
          let b ← dget_bool d "enabled" p
          pure { g with _enabled := some b }
        else pure g
      let g ← if memField d "collect" then do
          let b ← dget_bool d "collect" p
          pure { g with collect := b }
        else pure g
      pure g

/-- `GeneralLogSpec.validate`: raises when `collect` is set while `enabled`
is not truthy. -/
def GeneralLogSpec.validate (g : GeneralLogSpec) : Except String Unit :=
  if g.collect && !optBoolTruthy (GeneralLogSpec.enabled g) then
    Except.error (pyStrOfOpt g.pfx ++ ".collect is enabled while " ++
      pyStrOfOpt g.pfx ++ ".enabled is not")
  else Except.ok ()

/-- `GeneralLogSpec.get_cm_data`: renders `general-log.cnf`. -/
def GeneralLogSpec.get_cm_data (g : GeneralLogSpec) : List (String × String) :=
  let mycnf := "# Generated by MySQL Operator for Kubernetes\n[mysqld]\ngeneral_log=" ++
    (if optBoolTruthy (GeneralLogSpec.enabled g) then "1" else "0")
  let mycnf := if optBoolTruthy (GeneralLogSpec.enabled g) then
      mycnf ++ "\ngeneral_log_file=" ++ g.fileName
    else mycnf
  [(generalLogDescriptor.config_file_name, mycnf)]

/-- State of an `ErrorLogSpec` instance; defaults are the `__init__` values. -/
structure ErrorLogSpec where
  collect : Bool := false
  verbosity : Int := 3
  error_log_name : String := "error.log"
  pfx : Option String := none
deriving DecidableEq

/-- The `ConfigMapMountBase` constructor arguments of `ErrorLogSpec`. -/
def errorLogDescriptor : MountDescriptor :=
  { volume_mount_name := "error-log-config"
    config_file_name := "error-log.cnf"
    config_file_mount_path := "/etc/my.cnf.d" }

/-- `ErrorLogSpec.parse`: no-op on an absent/empty fragment, otherwise records
the error-path prefix and reads `verbosity` and `collect` when present. -/
def ErrorLogSpec.parse (frag : Option Doc) (p : String) (e : ErrorLogSpec) :
    Except String ErrorLogSpec :=
  if notSpec frag then Except.ok e
  else
    let d := frag.getD []
    let e := { e with pfx := some p }
    do
      let e ← if memField d "verbosity" then do
          let v ← dget_int d "verbosity" p
          pure { e with verbosity := v }
        else pure e
      let e ← if memField d "collect" then do
          let b ← dget_bool d "collect" p
          pure { e with collect := b }
        else pure e
      pure e

/-- `ErrorLogSpec.validate`: raises when `verbosity` lies outside `1..3`. -/
def ErrorLogSpec.validate (e : ErrorLogSpec) : Except String Unit :=
  if e.verbosity < 1 ∨ 3 < e.verbosity then
    Except.error (pyStrOfOpt e.pfx ++ ".verbosity must be between 1 and 3")
  else Except.ok ()

/-- State of a `SlowQueryLogSpec` instance; defaults are the `__init__`
values.  `longQueryTime` keeps the raw document value (the source reads it
without a typed extractor). -/
structure SlowQueryLogSpec where
  _enabled : Option Bool := none
  longQueryTime : Option PyVal := none
  collect : Bool := false
  fileName : String := "slow_query.log"
  pfx : Option String := none
deriving DecidableEq

/-- The `ConfigMapMountBase` constructor arguments of `SlowQueryLogSpec`. -/
def slowQueryLogDescriptor : MountDescriptor :=
  { volume_mount_name := "slow-query-log-config"
    config_file_name := "slow-query-log.cnf"
    config_file_mount_path := "/etc/my.cnf.d" }

/-- The `enabled` property of `SlowQueryLogSpec`. -/
def SlowQueryLogSpec.enabled (s : SlowQueryLogSpec) : Option Bool :=
  s._enabled

/-- `SlowQueryLogSpec.parse`: no-op on an absent/empty fragment, otherwise
records the error-path prefix and reads `enabled`, the raw `longQueryTime`
value, and `collect` when present. -/
def SlowQueryLogSpec.parse (frag : Option Doc) (p : String) (s : SlowQueryLogSpec) :
    Except String SlowQueryLogSpec :=
  if notSpec frag then Except.ok s
  else
    let d := frag.getD []
    let s := { s with pfx := some p }
    do
      let s ← if memField d "enabled" then do
          let b ← dget_bool d "enabled" p
          pure { s with _enabled := some b }
        else pure s
      let s := if memField d "longQueryTime" then
          { s with longQueryTime := d.lookup "longQueryTime" }
        else s
      let s ← if memField d "collect" then do
          let b ← dget_bool d "collect" p
          pure { s with collect := b }
        else pure s
      pure s

/-- Python `(isinstance(v, int) or isinstance(v, float)) and v < 0` on the
optional stored `longQueryTime`. -/
def lqNegNum : Option PyVal → Bool
  | some v => v.isNum && v.isNeg
  | none => false

/-- `SlowQueryLogSpec.validate`: raises when `longQueryTime` is a negative
number, then — only when the stored prefix is truthy — when `collect` is set
while `enabled` is not truthy. -/
def SlowQueryLogSpec.validate (s : SlowQueryLogSpec) : Except String Unit :=
  if lqNegNum s.longQueryTime then
    Except.error (pyStrOfOpt s.pfx ++ ".longQueryTime must not be negative")
  else if optStrTruthy s.pfx && s.collect && !optBoolTruthy (SlowQueryLogSpec.enabled s) then
    Except.error (pyStrOfOpt s.pfx ++ ".collect is enabled while " ++
      pyStrOfOpt s.pfx ++ ".enabled is not")
  else Except.ok ()

/-- `SlowQueryLogSpec.get_cm_data`: renders `slow-query-log.cnf`; a truthy
`longQueryTime` is interpolated verbatim into the `long_query_time` line. -/
def SlowQueryLogSpec.get_cm_data (s : SlowQueryLogSpec) : List (String × String) :=
  let en := optBoolTruthy (SlowQueryLogSpec.enabled s)
  let mycnf := "# Generated by MySQL Operator for Kubernetes\n[mysqld]\nslow_query_log=" ++
    (if en then "1" else "0")
  let mycnf := if en then
      let m := mycnf ++ "\nslow_query_log_file='" ++ s.fileName ++
        "'\nlog_slow_admin_statements=1"
      match s.longQueryTime with
      | some v => if v.truthy then m ++ "\nlong_query_time=" ++ v.render else m
      | none => m
    else mycnf
  [(slowQueryLogDescriptor.config_file_name, mycnf)]

/-! ## Workload template model

`add_to_sts_spec` receives either a generic dict tree (first creation, merged
via `utils.merge_patch_object`) or a typed `V1StatefulSet` fetched from the
cluster (patched in place).  Both are reduced here to the part the code
touches: `sts.spec.template.spec.volumes` and `...containers`. -/

/-- One item of a ConfigMap volume source (`key`/`path` pair). -/
structure ConfigMapItem where
  key : String
  path : String
deriving DecidableEq

/-- The `configMap` part of the volume patch built by
`_add_volumes_to_sts_spec`. -/
structure ConfigMapVolumeSource where
  name : String
  defaultMode : Nat
  items : List ConfigMapItem
deriving DecidableEq

/-- A named volume backed by a ConfigMap, as the patch creates it. -/
structure Volume where
  name : String
  configMap : ConfigMapVolumeSource
deriving DecidableEq

/-- A container volume mount, as the patch creates it. -/
structure VolumeMount where
  name : String
  mountPath : String
  subPath : String
deriving DecidableEq

/-- The volume patch of `_add_volumes_to_sts_spec` (defaultMode `0o644`). -/
def MountDescriptor.volumePatch (d : MountDescriptor) (cm_name : String) : Volume :=
  { name := d.volume_mount_name
    configMap :=
      { name := cm_name
        defaultMode := 0o644
        items := [{ key := d.config_file_name, path := d.config_file_name }] } }

/-- The volume-mount patch of `_add_containers_to_sts_spec`. -/
def MountDescriptor.mountPatch (d : MountDescriptor) : VolumeMount :=
  { name := d.volume_mount_name
    mountPath := d.config_file_mount_path ++ "/" ++ d.config_file_name
    subPath := d.config_file_name }

/-- An entry of the typed container list.  `obj` is an actual container (a
dict or a `V1Container`; `get_object_name` reads the name of either), whose
mount list may hold `none` placeholders (Python `None`, dropped by the
filters).  `stray` is an entry that is neither — such as the bare string
`"containers"` that `containers += patch` appends, `patch` being a dict —
on which `get_object_name` raises. -/
inductive ContainerEntry where
  | obj (name : String) (volumeMounts : List (Option VolumeMount))
  | stray (s : String)
deriving DecidableEq

/-- The typed (`V1StatefulSet`) form of `sts.spec.template.spec`; volume-list
entries may be `none` placeholders, which the filter drops. -/
structure TypedPodSpec where
  volumes : List (Option Volume)
  containers : List ContainerEntry
deriving DecidableEq

/-- A container of the generic dict tree. -/
structure GenContainer where
  name : String
  volumeMounts : List VolumeMount
deriving DecidableEq

/-- The generic dict-tree form of `sts["spec"]["template"]["spec"]`. -/
structure GenPodSpec where
  volumes : List Volume
  containers : List GenContainer
deriving DecidableEq

/-- The two representations `add_to_sts_spec` dispatches on via
`isinstance`. -/
inductive Sts where
  | generic (g : GenPodSpec)
  | typed (t : TypedPodSpec)
deriving DecidableEq

/-- The filter predicate of line 71: keep a volume entry iff it is truthy and
its name differs from the log's volume name. -/
def keepVolume (vname : String) : Option Volume → Bool
  | none => false
  | some v => v.name != vname

/-- The filter predicate of line 99: keep a mount entry iff it is truthy and
its name differs from the log's volume name. -/
def keepMount (vname : String) : Option VolumeMount → Bool
  | none => false
  | some vm => vm.name != vname

/-- Typed branch of `_add_volumes_to_sts_spec`: filter out old entries for
this log's volume name (and falsy placeholders), then append the patch
volume. -/
def addVolumesTyped (d : MountDescriptor) (cm_name : String) (t : TypedPodSpec) :
    TypedPodSpec :=
  { t with volumes :=
      t.volumes.filter (keepVolume d.volume_mount_name) ++ [some (d.volumePatch cm_name)] }

/-- Typed branch of `_add_containers_to_sts_spec`, on the container list.
The loop rewrites the mount list of the first container whose name matches
and breaks; `none` models the `AttributeError` that `get_object_name` raises
on a stray entry.  When no container matches, the source runs
`containers += patch` where `patch` is the dict
`\x7b"containers": [...]\x7d`, so Python extends the list with the dict's
keys: the bare string `"containers"` is appended. -/
def addMountTyped (d : MountDescriptor) (container_name : String) :
    List ContainerEntry → Option (List ContainerEntry)
  | [] => some [ContainerEntry.stray "containers"]
  | ContainerEntry.stray _ :: _ => none
  | ContainerEntry.obj n vms :: es =>
    if n = container_name then
      some (ContainerEntry.obj n
        (vms.filter (keepMount d.volume_mount_name) ++ [some d.mountPatch]) :: es)
    else
      (addMountTyped d container_name es).map (ContainerEntry.obj n vms :: ·)

/-- Modelled from the spec: `utils.merge_patch_object` (not under src/)
overlays a partial document onto an existing one by key; on the lists of
named entries used here it overwrites the entry whose name matches the patch
entry and appends a patch entry with no match.  `key` extracts the name. -/
def mergeByName {α : Type} (key : α → String) (x : α) : List α → List α
  | [] => [x]
  | y :: ys => if key y = key x then x :: ys else y :: mergeByName key x ys

/-- Generic branch of `_add_containers_to_sts_spec`: merge the patched
container (carrying the one mount) into the container list by name; a
matching container has the mount merged into its mount list by name. -/
def mergeContainerMount (container_name : String) (m : VolumeMount) :
    List GenContainer → List GenContainer
  | [] => [{ name := container_name, volumeMounts := [m] }]
  | c :: cs =>
    if c.name = container_name then
      { c with volumeMounts := mergeByName VolumeMount.name m c.volumeMounts } :: cs
    else c :: mergeContainerMount container_name m cs

/-- Generic branch of `_add_volumes_to_sts_spec`. -/
def addVolumesGeneric (d : MountDescriptor) (cm_name : String) (g : GenPodSpec) :
    GenPodSpec :=
  { g with volumes := mergeByName Volume.name (d.volumePatch cm_name) g.volumes }

/-- Generic branch of `_add_containers_to_sts_spec`. -/
def addContainersGeneric (d : MountDescriptor) (container_name : String)
    (g : GenPodSpec) : GenPodSpec :=
  { g with containers := mergeContainerMount container_name (d.mountPatch) g.containers }

/-- `add_to_sts_spec` on the typed form: the container step runs first, the
volume step second; `none` models a raised exception. -/
def addTypedSts (d : MountDescriptor) (container_name cm_name : String)
    (t : TypedPodSpec) : Option TypedPodSpec :=
  (addMountTyped d container_name t.containers).map fun cs =>
    addVolumesTyped d cm_name { t with containers := cs }

/-- `add_to_sts_spec` on the generic form: the container step runs first, the
volume step second. -/
def addGenericSts (d : MountDescriptor) (container_name cm_name : String)
    (g : GenPodSpec) : GenPodSpec :=
  addVolumesGeneric d cm_name (addContainersGeneric d container_name g)

/-- `ConfigMapMountBase.add_to_sts_spec`, dispatching on the representation
as the source does via `isinstance`; `none` models a raised exception (typed
form only). -/
def add_to_sts_spec (d : MountDescriptor) (container_name cm_name : String) :
    Sts → Option Sts
  | Sts.generic g => some (Sts.generic (addGenericSts d container_name cm_name g))
  | Sts.typed t => (addTypedSts d container_name cm_name t).map Sts.typed

/-- Number of actual containers bearing a given name in a template. -/
def Sts.containerCount (n : String) : Sts → Nat
  | .generic g => g.containers.countP (fun c => c.name == n)
  | .typed t => t.containers.countP (fun e =>
      match e with
      | .obj m _ => m == n
      | .stray _ => false)

/-! ## Order-insensitive view of a template

Used to compare the results of applying two mounts in either order: the
volumes list and each container's mount list are read as multisets, while the
container lists stay position-sensitive. -/

/-- A container entry up to mount order. -/
def ContainerEntry.norm :
    ContainerEntry → String ⊕ (String × Multiset (Option VolumeMount))
  | .stray s => Sum.inl s
  | .obj n vms => Sum.inr (n, (vms : Multiset (Option VolumeMount)))

/-- A typed pod spec up to volume and mount order. -/
def TypedPodSpec.norm (t : TypedPodSpec) :
    Multiset (Option Volume) × List (String ⊕ (String × Multiset (Option VolumeMount))) :=
  ((t.volumes : Multiset (Option Volume)), t.containers.map ContainerEntry.norm)

/-- A generic container up to mount order. -/
def GenContainer.norm (c : GenContainer) : String × Multiset VolumeMount :=
  (c.name, (c.volumeMounts : Multiset VolumeMount))

/-- A generic pod spec up to volume and mount order. -/
def GenPodSpec.norm (g : GenPodSpec) :
    Multiset Volume × List (String × Multiset VolumeMount) :=
  ((g.volumes : Multiset Volume), g.containers.map GenContainer.norm)

/-- A template up to volume and mount order (keeping the representation). -/
def Sts.norm :
    Sts →
      (Multiset Volume × List (String × Multiset VolumeMount)) ⊕
      (Multiset (Option Volume) × List (String ⊕ (String × Multiset (Option VolumeMount))))
  | .generic g => Sum.inl g.norm
  | .typed t => Sum.inr t.norm

/-! ## Claims about the LogSpec family -/

/-- C5 counterexample: on a `GeneralLogSpec` with `enabled=true` (default file
name `general_query.log`), the `general-log.cnf` entry of `get_cm_data` is
not the bare string `"[mysqld]\ngeneral_log=1\ngeneral_log_file=general_query.log"`
the claim states: the rendered body starts with a generated-file header
line. -/
theorem general_cm_data_missing_header :
    ¬ ((GeneralLogSpec.get_cm_data { _enabled := some true }).lookup "general-log.cnf"
      = some "[mysqld]\ngeneral_log=1\ngeneral_log_file=general_query.log") := by
  decide

/-- C5 (amended): for `enabled=true` the `general-log.cnf` entry is exactly
the header line `# Generated by MySQL Operator for Kubernetes`, a newline,
then `[mysqld]\ngeneral_log=1\ngeneral_log_file=general_query.log`; for
`enabled=false` it is the header, a newline, then `[mysqld]\ngeneral_log=0`. -/
theorem general_cm_data_exact :
    GeneralLogSpec.get_cm_data { _enabled := some true }
      = [("general-log.cnf",
          "# Generated by MySQL Operator for Kubernetes\n[mysqld]\ngeneral_log=1\ngeneral_log_file=general_query.log")]
  ∧ GeneralLogSpec.get_cm_data { _enabled := some false }
      = [("general-log.cnf",
          "# Generated by MySQL Operator for Kubernetes\n[mysqld]\ngeneral_log=0")] := by
  exact ⟨rfl, rfl⟩

/-- C7: `ErrorLogSpec.validate` raises exactly when the stored verbosity lies
outside `1..3`; in particular it fails for 0 and 4 and passes for 1, 2, 3. -/
theorem error_validate_iff (e : ErrorLogSpec) :
    raisesError (ErrorLogSpec.validate e) = true ↔ (e.verbosity < 1 ∨ 3 < e.verbosity) := by
  by_cases h : e.verbosity < 1 ∨ 3 < e.verbosity <;>
    simp [ErrorLogSpec.validate, raisesError, h]

/-- Witness for C7 at verbosity 0. -/
theorem error_validate_iff_witness :
    raisesError (ErrorLogSpec.validate { verbosity := 0 }) = true :=
  (error_validate_iff { verbosity := 0 }).mpr (Or.inl (by decide))

/-- C6: after a parse that stored a non-empty prefix, `SlowQueryLogSpec.validate`
raises when `longQueryTime = -1`; raises when `collect=true` and
`enabled=false` (for any stored `longQueryTime` that is not a negative
number); and returns normally when `collect=true` and `enabled=true`. -/
theorem slow_validate_cases (p fn : String) (hp : p ≠ "") (en : Option Bool)
    (coll : Bool) (lq : Option PyVal) (hlq : lqNegNum lq = false) :
    raisesError (SlowQueryLogSpec.validate
      { _enabled := en, longQueryTime := some (PyVal.int (-1)), collect := coll,
        fileName := fn, pfx := some p }) = true
  ∧ raisesError (SlowQueryLogSpec.validate
      { _enabled := some false, longQueryTime := lq, collect := true,
        fileName := fn, pfx := some p }) = true
  ∧ raisesError (SlowQueryLogSpec.validate
      { _enabled := some true, longQueryTime := lq, collect := true,
        fileName := fn, pfx := some p }) = false := by
  have hpb : (p != "") = true := by simpa using hp
  refine ⟨?_, ?_, ?_⟩
  · simp [SlowQueryLogSpec.validate, raisesError, lqNegNum, PyVal.isNum, PyVal.isNeg]
  · simp [SlowQueryLogSpec.validate, raisesError, hlq, optStrTruthy, optBoolTruthy,
      SlowQueryLogSpec.enabled, hpb]
  · simp [SlowQueryLogSpec.validate, raisesError, hlq, optStrTruthy, optBoolTruthy,
      SlowQueryLogSpec.enabled, hpb]

/-- Witness for C6 at prefix `spec.logs`, `longQueryTime` absent. -/
theorem slow_validate_cases_witness :
    ("spec.logs" ≠ "" ∧ lqNegNum none = false)
  ∧ (raisesError (SlowQueryLogSpec.validate
      { _enabled := none, longQueryTime := some (PyVal.int (-1)), collect := false,
        fileName := "slow_query.log", pfx := some "spec.logs" }) = true
    ∧ raisesError (SlowQueryLogSpec.validate
        { _enabled := some false, longQueryTime := none, collect := true,
          fileName := "slow_query.log", pfx := some "spec.logs" }) = true
    ∧ raisesError (SlowQueryLogSpec.validate
        { _enabled := some true, longQueryTime := none, collect := true,
          fileName := "slow_query.log", pfx := some "spec.logs" }) = false) :=
  ⟨⟨by decide, rfl⟩,
    slow_validate_cases "spec.logs" "slow_query.log" (by decide) none false none rfl⟩

/-- C8: on an absent or empty specification fragment, `parse` returns without
raising and leaves a freshly constructed instance of each of the three kinds
exactly at its constructor defaults. -/
theorem parse_empty_noop (frag : Option Doc) (p : String) (h : notSpec frag = true) :
    GeneralLogSpec.parse frag p {} = Except.ok ({} : GeneralLogSpec)
  ∧ ErrorLogSpec.parse frag p {} = Except.ok ({} : ErrorLogSpec)
  ∧ SlowQueryLogSpec.parse frag p {} = Except.ok ({} : SlowQueryLogSpec) := by
  refine ⟨?_, ?_, ?_⟩ <;>
    simp [GeneralLogSpec.parse, ErrorLogSpec.parse, SlowQueryLogSpec.parse, h]

/-- Witness for C8 at an absent fragment. -/
theorem parse_empty_noop_witness :
    notSpec none = true
  ∧ (GeneralLogSpec.parse none "spec.logs" {} = Except.ok ({} : GeneralLogSpec)
    ∧ ErrorLogSpec.parse none "spec.logs" {} = Except.ok ({} : ErrorLogSpec)
    ∧ SlowQueryLogSpec.parse none "spec.logs" {} = Except.ok ({} : SlowQueryLogSpec)) :=
  ⟨rfl, parse_empty_noop none "spec.logs" rfl⟩

/-- C9: a stored `longQueryTime` that is a string is never rejected by
`validate` — even a string denoting a negative number — because the
`isinstance(int)/isinstance(float)` guard skips it; and when the log is
enabled, a truthy (non-empty) string value is interpolated verbatim into the
`long_query_time` line of the rendered body. -/
theorem slow_raw_lqt (t fn : String) (p : Option String) (en : Option Bool)
    (coll : Bool) (ht : t ≠ "")
    (hguard : (optStrTruthy p && coll && !optBoolTruthy en) = false) :
    raisesError (SlowQueryLogSpec.validate
      { _enabled := en, longQueryTime := some (PyVal.str t), collect := coll,
        fileName := fn, pfx := p }) = false
  ∧ SlowQueryLogSpec.get_cm_data
      { _enabled := some true, longQueryTime := some (PyVal.str t), collect := coll,
        fileName := fn, pfx := p }
    = [("slow-query-log.cnf",
        "# Generated by MySQL Operator for Kubernetes\n[mysqld]\nslow_query_log=1\nslow_query_log_file='"
          ++ fn ++ "'\nlog_slow_admin_statements=1\nlong_query_time=" ++ t)] := by
  have htb : (t != "") = true := by simpa using ht
  constructor
  · simp [SlowQueryLogSpec.validate, raisesError, lqNegNum, PyVal.isNum,
      SlowQueryLogSpec.enabled, hguard]
  · simp [SlowQueryLogSpec.get_cm_data, SlowQueryLogSpec.enabled, optBoolTruthy,
      PyVal.truthy, PyVal.render, htb, slowQueryLogDescriptor, String.append_assoc]

/-- Witness for C9 at the string value `"-1"`. -/
theorem slow_raw_lqt_witness :
    ("-1" ≠ ""
      ∧ (optStrTruthy none && false && !optBoolTruthy (some true)) = false)
  ∧ (raisesError (SlowQueryLogSpec.validate
      { _enabled := some true, longQueryTime := some (PyVal.str "-1"), collect := false,
        fileName := "slow_query.log", pfx := none }) = false
    ∧ SlowQueryLogSpec.get_cm_data
        { _enabled := some true, longQueryTime := some (PyVal.str "-1"), collect := false,
          fileName := "slow_query.log", pfx := none }
      = [("slow-query-log.cnf",
          "# Generated by MySQL Operator for Kubernetes\n[mysqld]\nslow_query_log=1\nslow_query_log_file='"
            ++ "slow_query.log" ++ "'\nlog_slow_admin_statements=1\nlong_query_time=" ++ "-1")]) :=
  ⟨⟨by decide, rfl⟩,
    slow_raw_lqt "-1" "slow_query.log" none (some true) false (by decide) rfl⟩

/-- C10: the collect-implies-enabled check is guarded differently across
kinds: `GeneralLogSpec.validate` raises whenever `collect` is true and
`enabled` is not truthy, whether or not a prefix was ever stored, while
`SlowQueryLogSpec.validate` skips the check entirely when the stored prefix
is unset and returns normally there (default `longQueryTime`). -/
theorem collect_guard_asymmetry :
    (∀ g : GeneralLogSpec, g.collect = true →
      optBoolTruthy (GeneralLogSpec.enabled g) = false →
      raisesError (GeneralLogSpec.validate g) = true)
  ∧ (∀ (en : Option Bool) (fn : String),
      raisesError (SlowQueryLogSpec.validate
        { _enabled := en, longQueryTime := none, collect := true,
          fileName := fn, pfx := none }) = false) := by
  constructor
  · intro g h1 h2
    simp [GeneralLogSpec.validate, raisesError, h1, h2]
  · intro en fn
    simp [SlowQueryLogSpec.validate, raisesError, lqNegNum, optStrTruthy]

/-- Witness for C10: a general instance with `collect=true`, `enabled` unset
and no stored prefix raises, while the analogous slow-query instance does
not. -/
theorem collect_guard_asymmetry_witness :
    (({ collect := true } : GeneralLogSpec).collect = true
      ∧ optBoolTruthy (GeneralLogSpec.enabled ({ collect := true } : GeneralLogSpec)) = false)
  ∧ raisesError (GeneralLogSpec.validate ({ collect := true } : GeneralLogSpec)) = true
  ∧ raisesError (SlowQueryLogSpec.validate
      { _enabled := some false, longQueryTime := none, collect := true,
        fileName := "slow_query.log", pfx := none }) = false :=
  ⟨⟨rfl, rfl⟩, collect_guard_asymmetry.1 { collect := true } rfl rfl,
    collect_guard_asymmetry.2 (some false) "slow_query.log"⟩

/-! ## Claims about the mount merge -/

/-- C1 (the code violates it): on a typed template with no containers, after
`add_to_sts_spec` for the general log there is still no container named
`logcollector` at all — the bootstrap path appended the dict key
`"containers"` instead of a container entry — so no container holds the
required VolumeMount. -/
theorem add_missing_container_no_mount :
    (add_to_sts_spec generalLogDescriptor "logcollector" "general-log-cm"
        (Sts.typed { volumes := [], containers := [] })).map
      (Sts.containerCount "logcollector")
    = some 0 := by
  rfl

/-- C2 (the code violates it): on a typed template with no containers,
applying `add_to_sts_spec` twice with the same descriptor and names does not
yield a template at all — the second application raises, because the first
left the stray string `"containers"` in the container list and
`get_object_name` fails on it. -/
theorem add_twice_second_raises :
    ((add_to_sts_spec generalLogDescriptor "logcollector" "general-log-cm"
        (Sts.typed { volumes := [], containers := [] })).bind
      (add_to_sts_spec generalLogDescriptor "logcollector" "general-log-cm"))
    = none := by
  rfl

/-- C3 (the code violates it): on a typed template whose container list holds
no container named `logcollector`, `add_to_sts_spec` appends the bare string
`"containers"` (the key of the patch dict) to the container list — not a new
container entry carrying the mount. -/
theorem add_bootstrap_appends_dict_key :
    add_to_sts_spec generalLogDescriptor "logcollector" "general-log-cm"
        (Sts.typed { volumes := [], containers := [] })
    = some (Sts.typed
        { volumes := [some (generalLogDescriptor.volumePatch "general-log-cm")],
          containers := [ContainerEntry.stray "containers"] }) := by
  rfl

/-- Appending two elements in either order yields the same multiset. -/
theorem coe_append_pair {α : Type} (l : List α) (a b : α) :
    ((l ++ [a, b] : List α) : Multiset α) = ((l ++ [b, a] : List α) : Multiset α) :=
  Multiset.coe_eq_coe.mpr (List.Perm.append_left l (List.Perm.swap b a []))

/-- Two filters commute. -/
theorem filter_swap {α : Type} (p q : α → Bool) (l : List α) :
    (l.filter p).filter q = (l.filter q).filter p := by
  induction l with
  | nil => rfl
  | cons a l ih =>
    by_cases hp : p a <;> by_cases hq : q a <;>
      simp [List.filter_cons, hp, hq, ih]

/-- The typed volume step for two distinct volume names commutes up to
multiset. -/
theorem volumes_typed_comm (dA dB : MountDescriptor) (cmA cmB : String)
    (h : dA.volume_mount_name ≠ dB.volume_mount_name) (l : List (Option Volume)) :
    (((l.filter (keepVolume dA.volume_mount_name) ++ [some (dA.volumePatch cmA)]).filter
        (keepVolume dB.volume_mount_name) ++ [some (dB.volumePatch cmB)] :
        List (Option Volume)) : Multiset (Option Volume))
  = (((l.filter (keepVolume dB.volume_mount_name) ++ [some (dB.volumePatch cmB)]).filter
        (keepVolume dA.volume_mount_name) ++ [some (dA.volumePatch cmA)] :
        List (Option Volume)) : Multiset (Option Volume)) := by
  have hA : keepVolume dB.volume_mount_name (some (dA.volumePatch cmA)) = true := by
    simp [keepVolume, MountDescriptor.volumePatch]
    exact h
  have hB : keepVolume dA.volume_mount_name (some (dB.volumePatch cmB)) = true := by
    simp [keepVolume, MountDescriptor.volumePatch]
    exact Ne.symm h
  rw [List.filter_append, List.filter_append]
  have e1 : List.filter (keepVolume dB.volume_mount_name) [some (dA.volumePatch cmA)]
      = [some (dA.volumePatch cmA)] := by simp [hA]
  have e2 : List.filter (keepVolume dA.volume_mount_name) [some (dB.volumePatch cmB)]
      = [some (dB.volumePatch cmB)] := by simp [hB]
  rw [e1, e2, List.append_assoc, List.append_assoc, filter_swap]
  exact coe_append_pair _ _ _

/-- The typed mount step inside a container for two distinct volume names
commutes up to multiset. -/
theorem mounts_typed_comm (dA dB : MountDescriptor)
    (h : dA.volume_mount_name ≠ dB.volume_mount_name) (l : List (Option VolumeMount)) :
    (((l.filter (keepMount dA.volume_mount_name) ++ [some dA.mountPatch]).filter
        (keepMount dB.volume_mount_name) ++ [some dB.mountPatch] :
        List (Option VolumeMount)) : Multiset (Option VolumeMount))
  = (((l.filter (keepMount dB.volume_mount_name) ++ [some dB.mountPatch]).filter
        (keepMount dA.volume_mount_name) ++ [some dA.mountPatch] :
        List (Option VolumeMount)) : Multiset (Option VolumeMount)) := by
  have hA : keepMount dB.volume_mount_name (some dA.mountPatch) = true := by
    simp [keepMount, MountDescriptor.mountPatch]
    exact h
  have hB : keepMount dA.volume_mount_name (some dB.mountPatch) = true := by
    simp [keepMount, MountDescriptor.mountPatch]
    exact Ne.symm h
  rw [List.filter_append, List.filter_append]
  have e1 : List.filter (keepMount dB.volume_mount_name) [some dA.mountPatch]
      = [some dA.mountPatch] := by simp [hA]
  have e2 : List.filter (keepMount dA.volume_mount_name) [some dB.mountPatch]
      = [some dB.mountPatch] := by simp [hB]
  rw [e1, e2, List.append_assoc, List.append_assoc, filter_swap]
  exact coe_append_pair _ _ _

/-- Pushing a second container step under a non-matching head. -/
theorem bind_cons_obj (d : MountDescriptor) (cn n : String)
    (vms : List (Option VolumeMount)) (hn : ¬ n = cn)
    (o : Option (List ContainerEntry)) :
    (o.map (ContainerEntry.obj n vms :: ·)).bind (addMountTyped d cn)
  = (o.bind (addMountTyped d cn)).map (ContainerEntry.obj n vms :: ·) := by
  cases o with
  | none => rfl
  | some xs =>
    simp [addMountTyped, hn]

/-- Normalising after consing a fixed head. -/
theorem map_norm_cons (e : ContainerEntry) (o : Option (List ContainerEntry)) :
    (o.map (e :: ·)).map (List.map ContainerEntry.norm)
  = (o.map (List.map ContainerEntry.norm)).map (ContainerEntry.norm e :: ·) := by
  cases o <;> rfl

/-- The typed container step for two mounts with distinct volume names and
the same target container commutes up to per-container mount multisets
(both orders fail alike when they fail). -/
theorem addMountTyped_comm (dA dB : MountDescriptor) (cn : String)
    (h : dA.volume_mount_name ≠ dB.volume_mount_name) (l : List ContainerEntry) :
    ((addMountTyped dA cn l).bind (addMountTyped dB cn)).map (List.map ContainerEntry.norm)
  = ((addMountTyped dB cn l).bind (addMountTyped dA cn)).map (List.map ContainerEntry.norm) := by
  induction l with
  | nil => rfl
  | cons e es ih =>
    cases e with
    | stray s => rfl
    | obj n vms =>
      by_cases hn : n = cn
      · subst hn
        have hm := mounts_typed_comm dA dB h vms
        have hA1 : addMountTyped dA n (ContainerEntry.obj n vms :: es)
            = some (ContainerEntry.obj n
                (vms.filter (keepMount dA.volume_mount_name) ++ [some dA.mountPatch]) :: es) := by
          simp [addMountTyped]
        have hB1 : addMountTyped dB n (ContainerEntry.obj n vms :: es)
            = some (ContainerEntry.obj n
                (vms.filter (keepMount dB.volume_mount_name) ++ [some dB.mountPatch]) :: es) := by
          simp [addMountTyped]
        have hA2 : addMountTyped dB n (ContainerEntry.obj n
              (vms.filter (keepMount dA.volume_mount_name) ++ [some dA.mountPatch]) :: es)
            = some (ContainerEntry.obj n
                ((vms.filter (keepMount dA.volume_mount_name) ++ [some dA.mountPatch]).filter
                    (keepMount dB.volume_mount_name) ++ [some dB.mountPatch]) :: es) := by
          simp [addMountTyped]
        have hB2 : addMountTyped dA n (ContainerEntry.obj n
              (vms.filter (keepMount dB.volume_mount_name) ++ [some dB.mountPatch]) :: es)
            = some (ContainerEntry.obj n
                ((vms.filter (keepMount dB.volume_mount_name) ++ [some dB.mountPatch]).filter
                    (keepMount dA.volume_mount_name) ++ [some dA.mountPatch]) :: es) := by
          simp [addMountTyped]
        rw [hA1, hB1, Option.some_bind, Option.some_bind, hA2, hB2]
        exact congrArg (fun y => some (y :: List.map ContainerEntry.norm es))
          (congrArg
            (fun m => (Sum.inr (n, m) :
              String ⊕ (String × Multiset (Option VolumeMount)))) hm)
      · have hLA : addMountTyped dA cn (ContainerEntry.obj n vms :: es)
            = (addMountTyped dA cn es).map (ContainerEntry.obj n vms :: ·) := by
          simp [addMountTyped, hn]
        have hLB : addMountTyped dB cn (ContainerEntry.obj n vms :: es)
            = (addMountTyped dB cn es).map (ContainerEntry.obj n vms :: ·) := by
          simp [addMountTyped, hn]
        rw [hLA, hLB, bind_cons_obj dB cn n vms hn, bind_cons_obj dA cn n vms hn,
          map_norm_cons, map_norm_cons, ih]

/-- The modelled merge-by-name for two entries with distinct keys commutes up
to multiset. -/
theorem mergeByName_comm {α : Type} (key : α → String) (a b : α)
    (h : key a ≠ key b) (l : List α) :
    ((mergeByName key b (mergeByName key a l) : List α) : Multiset α)
  = ((mergeByName key a (mergeByName key b l) : List α) : Multiset α) := by
  induction l with
  | nil =>
    simp [mergeByName, h, Ne.symm h]
    exact List.Perm.swap b a []
  | cons y ys ih =>
    by_cases hya : key y = key a
    · have hyb : key y ≠ key b := fun e => h (hya ▸ e)
      simp [mergeByName, hya, hyb, h, Ne.symm h]
    · by_cases hyb : key y = key b
      · simp [mergeByName, hya, hyb, h, Ne.symm h]
      · simp only [mergeByName, if_neg hya, if_neg hyb]
        exact Multiset.coe_eq_coe.mpr (List.Perm.cons y (Multiset.coe_eq_coe.mp ih))

/-- The modelled generic container merge for two mounts with distinct volume
names and the same target container commutes up to per-container mount
multisets. -/
theorem mergeContainerMount_comm (cn : String) (mA mB : VolumeMount)
    (h : mA.name ≠ mB.name) (l : List GenContainer) :
    (mergeContainerMount cn mB (mergeContainerMount cn mA l)).map GenContainer.norm
  = (mergeContainerMount cn mA (mergeContainerMount cn mB l)).map GenContainer.norm := by
  induction l with
  | nil =>
    simp [mergeContainerMount, mergeByName, h, Ne.symm h, GenContainer.norm]
    exact List.Perm.swap mB mA []
  | cons c cs ih =>
    by_cases hc : c.name = cn
    · simp only [mergeContainerMount, if_pos hc, if_pos (show c.name = cn from hc),
        List.map_cons, GenContainer.norm]
      rw [mergeByName_comm VolumeMount.name mA mB h c.volumeMounts]
    · simp only [mergeContainerMount, if_neg hc, List.map_cons]
      rw [ih]

/-- The generic form of `add_to_sts_spec` for two mounts with distinct volume
names and the same target container commutes up to volume and per-container
mount multisets. -/
theorem addGenericSts_comm (dA dB : MountDescriptor) (cn cmA cmB : String)
    (h : dA.volume_mount_name ≠ dB.volume_mount_name) (g : GenPodSpec) :
    (addGenericSts dB cn cmB (addGenericSts dA cn cmA g)).norm
  = (addGenericSts dA cn cmA (addGenericSts dB cn cmB g)).norm := by
  have hv : Volume.name (dA.volumePatch cmA) ≠ Volume.name (dB.volumePatch cmB) := h
  have hm : VolumeMount.name dA.mountPatch ≠ VolumeMount.name dB.mountPatch := h
  simp only [addGenericSts, addVolumesGeneric, addContainersGeneric, GenPodSpec.norm]
  exact Prod.ext (mergeByName_comm Volume.name _ _ hv g.volumes)
    (mergeContainerMount_comm cn _ _ hm g.containers)

/-- Unfolded form of the typed add: the container step feeds the final
container list, the volume step rewrites the volumes independently. -/
theorem addTypedSts_eq (d : MountDescriptor) (cn cm : String) (t : TypedPodSpec) :
    addTypedSts d cn cm t
  = (addMountTyped d cn t.containers).map fun cs =>
      { volumes := t.volumes.filter (keepVolume d.volume_mount_name)
          ++ [some (d.volumePatch cm)],
        containers := cs } := by
  unfold addTypedSts addVolumesTyped
  cases addMountTyped d cn t.containers <;> rfl

/-- Composing two typed adds: the container steps compose in sequence and
the volume steps compose in sequence, independently. -/
theorem addTypedSts_bind (dA dB : MountDescriptor) (cn cmA cmB : String)
    (t : TypedPodSpec) :
    (addTypedSts dA cn cmA t).bind (addTypedSts dB cn cmB)
  = ((addMountTyped dA cn t.containers).bind (addMountTyped dB cn)).map fun cs2 =>
      { volumes := (t.volumes.filter (keepVolume dA.volume_mount_name)
            ++ [some (dA.volumePatch cmA)]).filter (keepVolume dB.volume_mount_name)
          ++ [some (dB.volumePatch cmB)],
        containers := cs2 } := by
  rw [addTypedSts_eq dA cn cmA t]
  cases h1 : addMountTyped dA cn t.containers with
  | none => rfl
  | some cs1 =>
    show addTypedSts dB cn cmB _ = _
    rw [addTypedSts_eq dB cn cmB]
    rfl

/-- The typed form of `add_to_sts_spec` for two mounts with distinct volume
names and the same target container commutes up to volume and per-container
mount multisets; when one order fails so does the other. -/
theorem addTypedSts_comm (dA dB : MountDescriptor) (cn cmA cmB : String)
    (h : dA.volume_mount_name ≠ dB.volume_mount_name) (t : TypedPodSpec) :
    ((addTypedSts dA cn cmA t).bind (addTypedSts dB cn cmB)).map TypedPodSpec.norm
  = ((addTypedSts dB cn cmB t).bind (addTypedSts dA cn cmA)).map TypedPodSpec.norm := by
  have hc := addMountTyped_comm dA dB cn h t.containers
  rw [addTypedSts_bind dA dB cn cmA cmB t, addTypedSts_bind dB dA cn cmB cmA t]
  cases hx : (addMountTyped dA cn t.containers).bind (addMountTyped dB cn) with
  | none =>
    cases hy : (addMountTyped dB cn t.containers).bind (addMountTyped dA cn) with
    | none => rfl
    | some l2 => rw [hx, hy] at hc; simp at hc
  | some l1 =>
    cases hy : (addMountTyped dB cn t.containers).bind (addMountTyped dA cn) with
    | none => rw [hx, hy] at hc; simp at hc
    | some l2 =>
      rw [hx, hy] at hc
      simp only [Option.map_some', Option.some.injEq] at hc
      simp only [Option.map_some', Option.some.injEq, TypedPodSpec.norm]
      exact Prod.ext (volumes_typed_comm dA dB cmA cmB h t.volumes) hc

/-- Rewriting the composite typed dispatch through `addTypedSts`. -/
theorem map_typed_bind (d : MountDescriptor) (cn cm : String)
    (o : Option TypedPodSpec) :
    ((o.map Sts.typed).bind (add_to_sts_spec d cn cm)).map Sts.norm
  = ((o.bind (addTypedSts d cn cm)).map TypedPodSpec.norm).map Sum.inr := by
  cases o with
  | none => rfl
  | some t =>
    show (add_to_sts_spec d cn cm (Sts.typed t)).map Sts.norm
      = ((addTypedSts d cn cm t).map TypedPodSpec.norm).map Sum.inr
    rw [show add_to_sts_spec d cn cm (Sts.typed t)
      = (addTypedSts d cn cm t).map Sts.typed from rfl]
    cases addTypedSts d cn cm t <;> rfl

/-- C4 (amended): for two mounts with distinct volume names applied against
the same template and the same target container, the two application orders
agree up to the order of entries within the volumes list and within each
container's volumeMounts list (equal as multisets; container lists agree
pointwise), and when one order fails so does the other. -/
theorem add_to_sts_spec_order_comm (dA dB : MountDescriptor) (cn cmA cmB : String)
    (h : dA.volume_mount_name ≠ dB.volume_mount_name) (w : Sts) :
    ((add_to_sts_spec dA cn cmA w).bind (add_to_sts_spec dB cn cmB)).map Sts.norm
  = ((add_to_sts_spec dB cn cmB w).bind (add_to_sts_spec dA cn cmA)).map Sts.norm := by
  cases w with
  | generic g =>
    exact congrArg (fun x =>
        some ((Sum.inl x : (Multiset Volume × List (String × Multiset VolumeMount)) ⊕
          (Multiset (Option Volume) ×
            List (String ⊕ (String × Multiset (Option VolumeMount)))))))
      (addGenericSts_comm dA dB cn cmA cmB h g)
  | typed t =>
    rw [show add_to_sts_spec dA cn cmA (Sts.typed t)
        = (addTypedSts dA cn cmA t).map Sts.typed from rfl,
      show add_to_sts_spec dB cn cmB (Sts.typed t)
        = (addTypedSts dB cn cmB t).map Sts.typed from rfl,
      map_typed_bind dB cn cmB, map_typed_bind dA cn cmA,
      addTypedSts_comm dA dB cn cmA cmB h t]

/-- Witness for the amended C4: the general-log and slow-query-log mounts
applied in either order to a typed template holding one empty container named
`logcollector` give the same order-insensitive template. -/
theorem add_to_sts_spec_order_comm_witness :
    generalLogDescriptor.volume_mount_name ≠ slowQueryLogDescriptor.volume_mount_name
  ∧ ((add_to_sts_spec generalLogDescriptor "logcollector" "general-log-cm"
        (Sts.typed { volumes := [], containers := [ContainerEntry.obj "logcollector" []] })).bind
      (add_to_sts_spec slowQueryLogDescriptor "logcollector" "slow-query-log-cm")).map Sts.norm
    = ((add_to_sts_spec slowQueryLogDescriptor "logcollector" "slow-query-log-cm"
        (Sts.typed { volumes := [], containers := [ContainerEntry.obj "logcollector" []] })).bind
      (add_to_sts_spec generalLogDescriptor "logcollector" "general-log-cm")).map Sts.norm :=
  ⟨by decide,
    add_to_sts_spec_order_comm generalLogDescriptor slowQueryLogDescriptor
      "logcollector" "general-log-cm" "slow-query-log-cm" (by decide)
      (Sts.typed { volumes := [], containers := [ContainerEntry.obj "logcollector" []] })⟩

/-- C4 counterexample: applying the general-log and the slow-query-log mounts
to the same typed template in the two orders yields literally different
templates (the appended volumes and mounts end up in different list
positions). -/
theorem add_order_not_equal :
    ((add_to_sts_spec generalLogDescriptor "logcollector" "general-log-cm"
        (Sts.typed { volumes := [], containers := [ContainerEntry.obj "logcollector" []] })).bind
      (add_to_sts_spec slowQueryLogDescriptor "logcollector" "slow-query-log-cm"))
    ≠ ((add_to_sts_spec slowQueryLogDescriptor "logcollector" "slow-query-log-cm"
        (Sts.typed { volumes := [], containers := [ContainerEntry.obj "logcollector" []] })).bind
      (add_to_sts_spec generalLogDescriptor "logcollector" "general-log-cm")) := by
  decide

end MySQLOperatorLogs
